import Mathlib

/-!
Verification of the USGS water-gauge exporter (`usgs_exporter.py`) against its
specification.

The embedding models the three components the claims are about:

* `load_gauges` — reading and validating the gauge descriptor list
  (lines 78-90 of the source);
* `fetch_usgs_gauge` — the per-gauge credential-failover fetch, including
  rate-limit header handling and response-body parsing (lines 93-143);
* `metrics` — the scrape orchestrator that fans out one fetch per gauge,
  classifies results and assembles the snapshot (lines 146-185).

External effects are made explicit: the sequence of final per-credential HTTP
outcomes is an input (`Upstream`), the completion order of the worker-pool
tasks is an input list required to be a permutation of the gauge list, the
process-global Prometheus gauges for rate-limit telemetry are threaded as a
`RateState`, and elapsed wall-clock time is an input rational.  Python
exceptions are modelled with `Except`; machine floats carry only the values the
program actually produces, a rational number or the NaN sentinel (`Val`).
-/

namespace UsgsExporter

/-- Result value of one gauge fetch: a floating-point reading, or the
`float("nan")` sentinel the source uses for "not available". -/
inductive Val where
  | num (q : ℚ)
  | nan
deriving DecidableEq, Repr

/-- Python exception kinds raised by the modelled operations. -/
inductive Exc where
  | httpError (status : Nat)
  | requestException
  | typeError
  | valueError
  | keyError
  | indexError
  | attributeError
deriving DecidableEq, Repr

/-- JSON-like values for the response body of the upstream API.  String and
boolean JSON values are not modelled: no claim concerns them. -/
inductive Jv where
  | num (q : ℚ)
  | obj (fields : List (String × Jv))
  | arr (elems : List Jv)
  | null

/-- Python-dict lookup on an association list: the first binding wins (a
Python dict holds each key once). -/
def dictGet {κ ν : Type} [DecidableEq κ] (d : List (κ × ν)) (k : κ) : Option ν :=
  match d with
  | [] => none
  | (k1, v) :: rest => if k1 = k then some v else dictGet rest k

/-- Python-dict store on an association list: update the existing binding in
place, otherwise append the new binding at the end (insertion order is
preserved, as in a Python dict / the Prometheus client label registry). -/
def dictSet {κ ν : Type} [DecidableEq κ] (d : List (κ × ν)) (k : κ) (v : ν) :
    List (κ × ν) :=
  match d with
  | [] => [(k, v)]
  | (k1, v1) :: rest => if k1 = k then (k1, v) :: rest else (k1, v1) :: dictSet rest k v

/-- Digits of a decimal numeral; `none` when empty or containing a non-digit. -/
def decDigits : List Char → Option Nat
  | [] => none
  | cs =>
    if cs.all Char.isDigit then
      some (cs.foldl (fun n c => 10 * n + (c.toNat - 48)) 0)
    else none

/-- Decidable equality for `Except`, needed to evaluate the model's fallible
results in closed theorems. -/
instance exceptDecEq {ε α : Type} [DecidableEq ε] [DecidableEq α] :
    DecidableEq (Except ε α) := fun a b =>
  match a, b with
  | .error e1, .error e2 =>
    if h : e1 = e2 then isTrue (by rw [h])
    else isFalse fun hc => h (Except.error.inj hc)
  | .ok v1, .ok v2 =>
    if h : v1 = v2 then isTrue (by rw [h])
    else isFalse fun hc => h (Except.ok.inj hc)
  | .error e1, .ok v2 => isFalse fun hc => Except.noConfusion hc
  | .ok v1, .error e2 => isFalse fun hc => Except.noConfusion hc

/-- Python `int(s)` on a string: surrounding whitespace is stripped, then an
optional sign and decimal digits are read.  (Digit-separator underscores,
accepted by Python, are not modelled; no header value in the claims contains
one.) -/
def pyInt (s : String) : Except Unit Int :=
  match ((s.toList.dropWhile Char.isWhitespace).reverse.dropWhile
      Char.isWhitespace).reverse with
  | '-' :: cs =>
    match decDigits cs with
    | some n => .ok (-(n : Int))
    | none => .error ()
  | '+' :: cs =>
    match decDigits cs with
    | some n => .ok (n : Int)
    | none => .error ()
  | cs =>
    match decDigits cs with
    | some n => .ok (n : Int)
    | none => .error ()

/-- Python `int(x)` where `x` is an optional header string: `int(None)` raises
`TypeError`, a non-numeric string raises `ValueError` (source line 125). -/
def pyIntOpt (s : Option String) : Except Exc Int :=
  match s with
  | none => .error .typeError
  | some str =>
    match pyInt str with
    | .ok n => .ok n
    | .error _ => .error .valueError

/-- Python `float(x)` on a JSON value as the source applies it (lines 133-134):
numbers coerce to themselves, `None`, dicts and lists raise `TypeError`. -/
def pyFloat (v : Jv) : Except Exc Val :=
  match v with
  | .num q => .ok (.num q)
  | .obj _ => .error .typeError
  | .arr _ => .error .typeError
  | .null => .error .typeError

/-- Python truthiness of a JSON value (`if features:` on source line 130). -/
def jvTruthy (v : Jv) : Bool :=
  match v with
  | .num q => decide (q ≠ 0)
  | .obj fields => !fields.isEmpty
  | .arr elems => !elems.isEmpty
  | .null => false

/-- Python `x[0]` (source line 131): first element of a list; on a dict the
integer key is absent (`KeyError`), on other values a `TypeError`. -/
def jvIndex0 (v : Jv) : Except Exc Jv :=
  match v with
  | .arr (x :: _) => .ok x
  | .arr [] => .error .indexError
  | .obj _ => .error .keyError
  | .num _ => .error .typeError
  | .null => .error .typeError

/-- Python `x[k]` with a string key (source line 131): dict lookup raising
`KeyError` when absent, `TypeError` on non-dicts. -/
def jvSubscr (v : Jv) (k : String) : Except Exc Jv :=
  match v with
  | .obj fields =>
    match dictGet fields k with
    | some x => .ok x
    | none => .error .keyError
  | _ => .error .typeError

/-- Final outcome of one HTTP attempt for one credential, as seen by
`fetch_usgs_gauge` after the transport-level retry layer: either a transport
exception (`requests` connection error / timeout) or a response. -/
structure Resp where
  status : Nat
  /-- Value of the `X-RateLimit-Remaining` header, when present. -/
  remaining : Option String
  /-- Value of the `X-RateLimit-Limit` header, when present. -/
  limit : Option String
  /-- Parsed JSON body; `none` models a body on which `r.json()` raises. -/
  body : Option Jv

/-- Upstream outcome for one credential. -/
inductive Upstream where
  | transportError
  | resp (r : Resp)

/-- Process-global Prometheus rate-limit gauges, one association list per
metric, keyed by `api_key_label` (source lines 41-57). -/
structure RateState where
  remaining : List (String × Int)
  limit : List (String × Int)
  used : List (String × Int)
deriving DecidableEq, Repr

/-- Response-body parsing of `fetch_usgs_gauge` (source lines 128-135):
`data.get("features", [])`; with at least one feature read
`features[0]["properties"].get("value")`, unwrap a nested dict through its
inner `value` field (defaulting to NaN), coerce with `float`; with no
features return NaN. -/
def parseBody (body : Option Jv) : Except Exc Val :=
  match body with
  | none => .error .valueError
  | some data =>
    match data with
    | .obj fields =>
      let features := (dictGet fields "features").getD (.arr [])
      if jvTruthy features then
        match jvIndex0 features with
        | .error e => .error e
        | .ok f0 =>
          match jvSubscr f0 "properties" with
          | .error e => .error e
          | .ok props =>
            match props with
            | .obj pf =>
              match dictGet pf "value" with
              | some (.obj inner) =>
                match dictGet inner "value" with
                | none => .ok .nan
                | some v => pyFloat v
              | some v => pyFloat v
              | none => .error .typeError
            | _ => .error .attributeError
      else .ok .nan
    | _ => .error .attributeError

/-- Rate-limit header metric updates of `fetch_usgs_gauge` (source lines
109-122): each header is parsed when present, a `ValueError` from `int` is
silently swallowed (`except ValueError: pass`). -/
def recordHeaderMetrics (label : String) (r : Resp) (st : RateState) : RateState :=
  let st1 :=
    match r.remaining with
    | none => st
    | some s =>
      match pyInt s with
      | .ok n => { st with remaining := dictSet st.remaining label n }
      | .error _ => st
  match r.limit with
  | none => st1
  | some s =>
    match pyInt s with
    | .ok n => { st1 with limit := dictSet st1.limit label n }
    | .error _ => st1

/-- Body of the credential loop of `fetch_usgs_gauge` (source lines 105-135),
one credential: the `try` block through `raise_for_status`, the header
metrics, the unguarded `used = int(limit) - int(remaining)` (line 125) and the
body parse.  Returns the mutated global rate state together with the value
returned or the exception raised. -/
def attempt (label : String) (o : Upstream) (st : RateState) :
    RateState × Except Exc Val :=
  match o with
  | .transportError => (st, .error .requestException)
  | .resp r =>
    if 400 ≤ r.status then (st, .error (.httpError r.status))
    else
      let st2 := recordHeaderMetrics label r st
      match pyIntOpt r.limit, pyIntOpt r.remaining with
      | .ok l, .ok rem =>
        ({ st2 with used := dictSet st2.used label (l - rem) }, parseBody r.body)
      | .error e, _ => (st2, .error e)
      | .ok _, .error e => (st2, .error e)

/-- Credential loop of `fetch_usgs_gauge` (source lines 103-143): try each
credential in order; a raised `HTTPError` with status 429 continues to the
next credential, any other `HTTPError` or exception is logged and likewise
falls through to the next credential; when the list is exhausted return
`float("nan")`. -/
def fetch_usgs_gauge (outcomes : List (String × Upstream)) (st : RateState) :
    RateState × Val :=
  match outcomes with
  | [] => (st, .nan)
  | (label, o) :: rest =>
    match attempt label o st with
    | (st1, .ok v) => (st1, v)
    | (st1, .error _) => fetch_usgs_gauge rest st1

/-- One gauge fetch with the source's fixed credential list
`[("primary", API_KEY_PRIMARY), ("backup", API_KEY_BACKUP)]` (line 103); the
environment maps a gauge id to the upstream outcomes for the primary and the
backup credential. -/
def fetchGauge (env : String → Upstream × Upstream) (gid : String)
    (st : RateState) : RateState × Val :=
  fetch_usgs_gauge [("primary", (env gid).1), ("backup", (env gid).2)] st

/-- Gauge descriptor as loaded from YAML: a flat dict of string fields. -/
abbrev GaugeDict := List (String × String)

/-- Parsed content of `usgs_gauges.yaml`. -/
inductive Yaml where
  | list (items : List Yaml)
  | dict (fields : GaugeDict)
  | scalar (s : String)

/-- Extraction used once every entry has been validated as a dict. -/
def yamlAsDict : Yaml → Option GaugeDict
  | .dict fields => some fields
  | _ => none

/-- Per-entry validation of `load_gauges` (source line 85):
`isinstance(g, dict) and "id" in g`. -/
def entryWellFormed : Yaml → Bool
  | .dict fields => (dictGet fields "id").isSome
  | _ => false

/-- Whole-list validation of `load_gauges` (source lines 82-86). -/
def gaugesWellFormedE : Except String Yaml → Bool
  | .error _ => false
  | .ok (.list items) => items.all entryWellFormed
  | .ok _ => false

/-- The `load_gauges` function (source lines 78-90): the input is the result
of opening and YAML-parsing the configuration file (`Except.error` when that
raised).  Any malformed shape raises a `ValueError` inside the `try`, which
the handler converts into the empty list; a fully valid list is returned
unchanged. -/
def load_gauges (input : Except String Yaml) : List GaugeDict :=
  match input with
  | .error _ => []
  | .ok y =>
    match y with
    | .list items =>
      if items.all entryWellFormed then items.filterMap yamlAsDict else []
    | _ => []

/-- Label triple of the `usgs_streamflow_cfs` metric:
`(gauge_id, friendly_name, location_name)` (source lines 175-179).  A label is
`none` when the corresponding `dict.get` chain produced Python `None`. -/
abbrev FlowKey := Option String × Option String × Option String

/-- The `val != float("nan")` comparison on source line 166 under IEEE-754
semantics: `x != NaN` evaluates to `True` for every float `x`, including
`NaN` itself. -/
def valNeNan : Val → Bool
  | .num _ => true
  | .nan => true

/-- Mutable loop state of the result-collection loop of `metrics` (source
lines 151-179): the `usgs_streamflow_cfs` label registry, the two counters,
and the global rate-limit state mutated by the workers. -/
structure LoopAcc where
  flow : List (FlowKey × Val)
  succ : Nat
  fail : Nat
  st : RateState
deriving DecidableEq, Repr

/-- One iteration of the `as_completed` loop of `metrics` (source lines
158-179) for the completed task of gauge `g`: read the display labels with the
`dict.get` fallback chain, take the task's result (the worker ran
`fetch_usgs_gauge(g["id"])`; its rate-limit updates are serialised here, at
collection), classify it with `val != float("nan")`, and store the value in
the streamflow label registry. -/
def scrapeStep (env : String → Upstream × Upstream) (acc : LoopAcc)
    (g : GaugeDict) : LoopAcc :=
  let gauge_id := dictGet g "id"
  let friendly := (dictGet g "friendly_name").orElse
    fun _ => (dictGet g "name").orElse fun _ => gauge_id
  let location_name := (dictGet g "name").orElse fun _ => gauge_id
  let fr :=
    match gauge_id with
    | some gid => fetchGauge env gid acc.st
    | none => (acc.st, Val.nan)
  let val := fr.2
  let acc1 :=
    if valNeNan val then { acc with succ := acc.succ + 1 }
    else { acc with fail := acc.fail + 1 }
  { acc1 with
      flow := dictSet acc1.flow (gauge_id, friendly, location_name) val
      st := fr.1 }

/-- Submit-time evaluation of `g["id"]` for every gauge (source line 157);
a missing key raises `KeyError`.  (`load_gauges` output always carries the
key, so for the orchestrator this never fires.) -/
def checkIds : List GaugeDict → Except Exc Unit
  | [] => .ok ()
  | g :: rest =>
    match dictGet g "id" with
    | none => .error .keyError
    | some _ => checkIds rest

/-- One scrape snapshot: the state of all exporter-owned Prometheus metrics
when `metrics` returns (source lines 146-185). -/
structure Snapshot where
  streamflow : List (FlowKey × Val)
  successes : Nat
  failures : Nat
  gauges_total : Nat
  duration : ℚ
  rate : RateState
deriving DecidableEq, Repr

/-- The `/metrics` scrape handler (source lines 146-185).  Inputs beyond the
code's own state: `maxWorkers` is the `USGS_MAX_WORKERS` configuration,
`input` the result of reading the gauges file, `env` the deterministic
upstream outcomes per gauge id, `order` the completion order in which
`as_completed` yields the tasks (a permutation of the gauge list), `elapsed`
the measured wall-clock time, and `st0` the pre-scrape global rate-limit
state.  `ThreadPoolExecutor` raises `ValueError` when
`min(MAX_WORKERS, len(gauges))` is not positive — in particular for the empty
gauge list. -/
def metrics (maxWorkers : Int) (input : Except String Yaml)
    (env : String → Upstream × Upstream) (order : List GaugeDict)
    (elapsed : ℚ) (st0 : RateState) : Except Exc Snapshot :=
  let gauges := load_gauges input
  if min maxWorkers (gauges.length : Int) ≤ 0 then .error .valueError
  else
    match checkIds gauges with
    | .error e => .error e
    | .ok _ =>
      let res := order.foldl (scrapeStep env) ⟨[], 0, 0, st0⟩
      .ok ⟨res.flow, res.succ, res.fail, gauges.length, elapsed, res.st⟩

/-! ### Generic association-list lemmas -/

theorem dictGet_dictSet {κ ν : Type} [DecidableEq κ] (d : List (κ × ν))
    (k k' : κ) (v : ν) :
    dictGet (dictSet d k v) k' = if k = k' then some v else dictGet d k' := by
  induction d with
  | nil => simp [dictGet, dictSet]
  | cons hd tl ih =>
    obtain ⟨k1, v1⟩ := hd
    by_cases h1 : k1 = k
    · subst h1
      by_cases h2 : k1 = k' <;> simp [dictGet, dictSet, h2]
    · by_cases h2 : k1 = k'
      · subst h2
        simp [dictGet, dictSet, h1, Ne.symm h1]
      · simp [dictGet, dictSet, h1, h2, ih]

theorem dictGet_append {κ ν : Type} [DecidableEq κ] (d1 d2 : List (κ × ν))
    (k : κ) :
    dictGet (d1 ++ d2) k = (dictGet d1 k).orElse fun _ => dictGet d2 k := by
  induction d1 with
  | nil => simp [dictGet, Option.orElse]
  | cons hd tl ih =>
    obtain ⟨k1, v1⟩ := hd
    by_cases h : k1 = k <;> simp [dictGet, h, ih, Option.orElse]

theorem dictSet_eq_append {κ ν : Type} [DecidableEq κ] (d : List (κ × ν))
    (k : κ) (v : ν) (h : dictGet d k = none) :
    dictSet d k v = d ++ [(k, v)] := by
  induction d with
  | nil => simp [dictSet]
  | cons hd tl ih =>
    obtain ⟨k1, v1⟩ := hd
    by_cases h1 : k1 = k
    · simp [dictGet, h1] at h
    · simp [dictGet, h1] at h
      simp [dictSet, h1, ih h]

/-- Last element of a list satisfying a predicate, as the fold that a sequence
of last-writer-wins updates performs. -/
def lastWith {α : Type} (p : α → Bool) (l : List α) : Option α :=
  l.foldl (fun acc g => if p g then some g else acc) none

theorem foldl_lastWith {α : Type} (p : α → Bool) :
    ∀ (l : List α) (a : Option α),
      l.foldl (fun acc g => if p g then some g else acc) a
        = (lastWith p l).orElse fun _ => a := by
  intro l
  induction l with
  | nil => intro a; simp [lastWith, Option.orElse]
  | cons g t ih =>
    intro a
    have hcons : lastWith p (g :: t)
        = (lastWith p t).orElse fun _ => if p g then some g else none := by
      simp only [lastWith, List.foldl_cons]
      exact ih (if p g then some g else none)
    simp only [List.foldl_cons]
    rw [ih, hcons]
    cases h : lastWith p t <;> cases hp : p g <;> simp [Option.orElse, hp]

theorem lastWith_cons {α : Type} (p : α → Bool) (g : α) (t : List α) :
    lastWith p (g :: t)
      = (lastWith p t).orElse fun _ => if p g then some g else none := by
  simp only [lastWith, List.foldl_cons]
  exact foldl_lastWith p t (if p g then some g else none)

theorem lastWith_prop {α : Type} (p : α → Bool) :
    ∀ (l : List α) (a : α), lastWith p l = some a → p a = true := by
  intro l
  induction l with
  | nil => intro a h; simp [lastWith] at h
  | cons g t ih =>
    intro a h
    rw [lastWith_cons] at h
    cases ht : lastWith p t with
    | some b => rw [ht] at h; simp [Option.orElse] at h; exact h ▸ ih b ht
    | none =>
      rw [ht] at h
      cases hp : p g <;> simp [Option.orElse, hp] at h
      exact h ▸ hp

theorem lastWith_mem {α : Type} (p : α → Bool) :
    ∀ (l : List α) (a : α), lastWith p l = some a → a ∈ l := by
  intro l
  induction l with
  | nil => intro a h; simp [lastWith] at h
  | cons g t ih =>
    intro a h
    rw [lastWith_cons] at h
    cases ht : lastWith p t with
    | some b =>
      rw [ht] at h; simp [Option.orElse] at h
      exact h ▸ List.mem_cons_of_mem g (ih b ht)
    | none =>
      rw [ht] at h
      cases hp : p g <;> simp [Option.orElse, hp] at h
      exact h ▸ List.mem_cons_self g t

theorem lastWith_isSome {α : Type} (p : α → Bool) :
    ∀ l : List α, (lastWith p l).isSome = l.any p := by
  intro l
  induction l with
  | nil => simp [lastWith]
  | cons g t ih =>
    rw [lastWith_cons]
    cases ht : lastWith p t with
    | some b =>
      have : t.any p = true := by rw [← ih, ht]; rfl
      simp [Option.orElse, this]
    | none =>
      have : t.any p = false := by rw [← ih, ht]; rfl
      cases hp : p g <;> simp [Option.orElse, hp, this]

theorem any_of_perm {α : Type} (p : α → Bool) {l1 l2 : List α}
    (h : l1.Perm l2) : l1.any p = l2.any p := by
  induction h with
  | nil => rfl
  | cons x _ ih => simp [List.any_cons, ih]
  | swap x y l =>
    simp only [List.any_cons, ← Bool.or_assoc]
    rw [Bool.or_comm (p y) (p x)]
  | trans _ _ ih1 ih2 => rw [ih1, ih2]

/-- Pure last-writer-wins dictionary fold: the shape of both the streamflow
label registry and the rate-limit maps after a sequence of `set` calls. -/
def dffold {α κ ν : Type} [DecidableEq κ] (key : α → κ) (val : α → ν)
    (l : List α) : List (κ × ν) :=
  l.foldl (fun f g => dictSet f (key g) (val g)) []

theorem dffold_get_aux {α κ ν : Type} [DecidableEq κ] (key : α → κ)
    (val : α → ν) (k : κ) :
    ∀ (l : List α) (d : List (κ × ν)),
      dictGet (l.foldl (fun f g => dictSet f (key g) (val g)) d) k
        = ((lastWith (fun g => decide (key g = k)) l).map val).orElse
            fun _ => dictGet d k := by
  intro l
  induction l with
  | nil => intro d; simp [lastWith, Option.orElse]
  | cons g t ih =>
    intro d
    simp only [List.foldl_cons]
    rw [ih, lastWith_cons]
    cases ht : lastWith (fun g => decide (key g = k)) t with
    | some b => simp [Option.orElse]
    | none =>
      by_cases hk : key g = k
      · simp [Option.orElse, hk, dictGet_dictSet]
      · simp [Option.orElse, hk, dictGet_dictSet]

theorem dffold_get {α κ ν : Type} [DecidableEq κ] (key : α → κ) (val : α → ν)
    (l : List α) (k : κ) :
    dictGet (dffold key val l) k
      = (lastWith (fun g => decide (key g = k)) l).map val := by
  rw [dffold, dffold_get_aux]
  cases lastWith (fun g => decide (key g = k)) l <;> simp [Option.orElse, dictGet]

theorem dffold_get_perm {α κ ν : Type} [DecidableEq κ] (key : α → κ)
    (val : α → ν) {l1 l2 : List α}
    (hkv : ∀ a b, key a = key b → val a = val b) (h : l1.Perm l2) (k : κ) :
    dictGet (dffold key val l1) k = dictGet (dffold key val l2) k := by
  rw [dffold_get, dffold_get]
  have hany := any_of_perm (fun g => decide (key g = k)) h
  cases h1 : lastWith (fun g => decide (key g = k)) l1 with
  | some a1 =>
    cases h2 : lastWith (fun g => decide (key g = k)) l2 with
    | some a2 =>
      have q1 : key a1 = k :=
        of_decide_eq_true (lastWith_prop (fun g => decide (key g = k)) l1 a1 h1)
      have q2 : key a2 = k :=
        of_decide_eq_true (lastWith_prop (fun g => decide (key g = k)) l2 a2 h2)
      simp [hkv a1 a2 (q1.trans q2.symm)]
    | none =>
      have i1 := lastWith_isSome (fun g => decide (key g = k)) l1
      have i2 := lastWith_isSome (fun g => decide (key g = k)) l2
      rw [h1] at i1; rw [h2] at i2
      rw [hany] at i1; rw [← i2] at i1
      simp at i1
  | none =>
    cases h2 : lastWith (fun g => decide (key g = k)) l2 with
    | some a2 =>
      have i1 := lastWith_isSome (fun g => decide (key g = k)) l1
      have i2 := lastWith_isSome (fun g => decide (key g = k)) l2
      rw [h1] at i1; rw [h2] at i2
      rw [hany] at i1; rw [← i2] at i1
      simp at i1
    | none => rfl

theorem dffold_nodup_aux {α κ ν : Type} [DecidableEq κ] (key : α → κ)
    (val : α → ν) :
    ∀ (l : List α) (d : List (κ × ν)), (l.map key).Nodup →
      (∀ g ∈ l, dictGet d (key g) = none) →
      l.foldl (fun f g => dictSet f (key g) (val g)) d
        = d ++ l.map fun g => (key g, val g) := by
  intro l
  induction l with
  | nil => intro d _ _; simp
  | cons g t ih =>
    intro d hnd hdis
    have h0 : dictGet d (key g) = none := hdis g (List.mem_cons_self g t)
    have hset : dictSet d (key g) (val g) = d ++ [(key g, val g)] :=
      dictSet_eq_append d _ _ h0
    simp only [List.map_cons, List.nodup_cons] at hnd
    have hdis2 : ∀ x ∈ t, dictGet (d ++ [(key g, val g)]) (key x) = none := by
      intro x hx
      rw [dictGet_append]
      have hxd : dictGet d (key x) = none := hdis x (List.mem_cons_of_mem g hx)
      have hne : ¬ key g = key x := fun hcontra => hnd.1 (hcontra ▸ List.mem_map_of_mem key hx)
      simp [hxd, dictGet, hne, Option.orElse]
    simp only [List.foldl_cons]
    rw [hset, ih (d ++ [(key g, val g)]) hnd.2 hdis2]
    simp

theorem dffold_nodup {α κ ν : Type} [DecidableEq κ] (key : α → κ)
    (val : α → ν) (l : List α) (hnd : (l.map key).Nodup) :
    dffold key val l = l.map fun g => (key g, val g) := by
  rw [dffold, dffold_nodup_aux key val l [] hnd (by intro g _; rfl)]
  simp

/-! ### Model-level lemmas -/

theorem valNeNan_true (v : Val) : valNeNan v = true := by
  cases v <;> rfl

theorem attempt_snd_const (label : String) (o : Upstream) (st st' : RateState) :
    (attempt label o st).2 = (attempt label o st').2 := by
  cases o with
  | transportError => rfl
  | resp r =>
    simp only [attempt]
    by_cases h : 400 ≤ r.status
    · simp [h]
    · simp only [if_neg h]
      rcases hL : pyIntOpt r.limit with e | l <;>
        rcases hR : pyIntOpt r.remaining with e2 | rem <;> simp [hL, hR]

theorem fetch_snd_const (outs : List (String × Upstream)) :
    ∀ st st' : RateState,
      (fetch_usgs_gauge outs st).2 = (fetch_usgs_gauge outs st').2 := by
  induction outs with
  | nil => intro st st'; rfl
  | cons p rest ih =>
    intro st st'
    obtain ⟨label, o⟩ := p
    rcases h1 : attempt label o st with ⟨s1, r1⟩
    rcases h2 : attempt label o st' with ⟨s2, r2⟩
    have hr : r1 = r2 := by
      have hc := attempt_snd_const label o st st'
      rw [h1, h2] at hc; exact hc
    subst hr
    cases r1 with
    | ok v => simp [fetch_usgs_gauge, h1, h2]
    | error e =>
      simp only [fetch_usgs_gauge, h1, h2]
      exact ih s1 s2

theorem fetchGauge_snd_const (env : String → Upstream × Upstream) (gid : String)
    (st st' : RateState) :
    (fetchGauge env gid st).2 = (fetchGauge env gid st').2 :=
  fetch_snd_const _ st st'

/-- Value a completed task contributes for gauge `g`, independent of the
global rate-limit state at execution time. -/
def gaugeVal (env : String → Upstream × Upstream) (g : GaugeDict) : Val :=
  match dictGet g "id" with
  | some gid => (fetchGauge env gid ⟨[], [], []⟩).2
  | none => Val.nan

/-- Streamflow label triple contributed by gauge `g`. -/
def flowKey (g : GaugeDict) : FlowKey :=
  (dictGet g "id",
   (dictGet g "friendly_name").orElse
     fun _ => (dictGet g "name").orElse fun _ => dictGet g "id",
   (dictGet g "name").orElse fun _ => dictGet g "id")

/-- Rate-limit state transition performed by the task of gauge `g`. -/
def stepSt (env : String → Upstream × Upstream) (st : RateState)
    (g : GaugeDict) : RateState :=
  match dictGet g "id" with
  | some gid => (fetchGauge env gid st).1
  | none => st

theorem scrapeStep_eq (env : String → Upstream × Upstream) (acc : LoopAcc)
    (g : GaugeDict) :
    scrapeStep env acc g
      = ⟨dictSet acc.flow (flowKey g) (gaugeVal env g), acc.succ + 1, acc.fail,
         stepSt env acc.st g⟩ := by
  obtain ⟨flow, succ, fail, st⟩ := acc
  cases h : dictGet g "id" with
  | none => simp [scrapeStep, flowKey, gaugeVal, stepSt, h, valNeNan_true]
  | some gid =>
    have hv := fetchGauge_snd_const env gid st ⟨[], [], []⟩
    simp [scrapeStep, flowKey, gaugeVal, stepSt, h, valNeNan_true, hv]

theorem scrape_fold_eq (env : String → Upstream × Upstream) :
    ∀ (l : List GaugeDict) (acc : LoopAcc),
      l.foldl (scrapeStep env) acc
        = ⟨l.foldl (fun f g => dictSet f (flowKey g) (gaugeVal env g)) acc.flow,
           acc.succ + l.length, acc.fail, l.foldl (stepSt env) acc.st⟩ := by
  intro l
  induction l with
  | nil => intro acc; simp
  | cons g t ih =>
    intro acc
    simp only [List.foldl_cons]
    rw [scrapeStep_eq, ih]
    simp only [LoopAcc.mk.injEq, List.length_cons]
    refine ⟨trivial, by omega, trivial, trivial⟩

theorem checkIds_filterMap :
    ∀ items : List Yaml, items.all entryWellFormed = true →
      checkIds (items.filterMap yamlAsDict) = .ok () := by
  intro items
  induction items with
  | nil => intro _; rfl
  | cons y t ih =>
    intro h
    simp only [List.all_cons, Bool.and_eq_true] at h
    cases y with
    | dict fields =>
      have hid : (dictGet fields "id").isSome = true := h.1
      cases hget : dictGet fields "id" with
      | none => rw [hget] at hid; simp at hid
      | some gid =>
        simp only [List.filterMap_cons, yamlAsDict]
        simp [checkIds, hget, ih h.2]
    | list items2 => simp [entryWellFormed] at h
    | scalar s => simp [entryWellFormed] at h

theorem checkIds_load (input : Except String Yaml) :
    checkIds (load_gauges input) = .ok () := by
  cases input with
  | error e => rfl
  | ok y =>
    cases y with
    | dict fields => rfl
    | scalar s => rfl
    | list items =>
      simp only [load_gauges]
      by_cases h : items.all entryWellFormed
      · rw [if_pos h]; exact checkIds_filterMap items h
      · rw [if_neg h]; rfl

theorem metrics_ok {maxW : Int} {input : Except String Yaml}
    {env : String → Upstream × Upstream} {order : List GaugeDict} {d : ℚ}
    {st0 : RateState} {snap : Snapshot}
    (h : metrics maxW input env order d st0 = Except.ok snap) :
    snap.streamflow = (order.foldl (scrapeStep env) ⟨[], 0, 0, st0⟩).flow
    ∧ snap.successes = (order.foldl (scrapeStep env) ⟨[], 0, 0, st0⟩).succ
    ∧ snap.failures = (order.foldl (scrapeStep env) ⟨[], 0, 0, st0⟩).fail
    ∧ snap.gauges_total = (load_gauges input).length
    ∧ snap.duration = d
    ∧ snap.rate = (order.foldl (scrapeStep env) ⟨[], 0, 0, st0⟩).st := by
  simp only [metrics] at h
  split at h
  · exact absurd h (by simp)
  · rw [checkIds_load] at h
    simp only [Except.ok.injEq] at h
    subst h
    exact ⟨rfl, rfl, rfl, rfl, rfl, rfl⟩

/-! ### Concrete scrape scenarios used in the claim theorems -/

/-- Rate-limit state with no observation recorded yet. -/
def emptyRate : RateState := ⟨[], [], []⟩

/-- Response body with one feature whose `properties.value` is 42.5. -/
def bodyVal425 : Jv :=
  .obj [("features", .arr [.obj [("properties", .obj [("value", .num (85/2))])]])]

/-- A single gauge descriptor with id `G1` and no display names. -/
def gaugeG1 : GaugeDict := [("id", "G1")]

/-- Upstream environment where both credentials are rejected with HTTP 429
for every gauge. -/
def env429 : String → Upstream × Upstream :=
  fun _ => (.resp ⟨429, none, none, none⟩, .resp ⟨429, none, none, none⟩)

/-- Snapshot the scrape produces for the single gauge `G1` when both
credentials fail: the NaN reading is classified as a success. -/
def snapG1 : Snapshot :=
  ⟨[((some "G1", some "G1", some "G1"), Val.nan)], 1, 0, 1, 0, emptyRate⟩

/-! ### Claims -/

/-- C1: the claim states that for the empty gauge-descriptor list the scrape
completes without error and returns a zero-gauge snapshot.  The code instead
passes `min(MAX_WORKERS, 0) = 0` to `ThreadPoolExecutor`, whose constructor
raises `ValueError`, so the scrape aborts with an error and no snapshot.  This
theorem evaluates the model at the failing input (default configuration
`MAX_WORKERS = 10`, empty list). -/
theorem c1_empty_gauge_list_raises :
    metrics 10 (.ok (.list [])) (fun _ => (.transportError, .transportError))
      [] 0 emptyRate = .error .valueError := by decide

/-- C2: the claim states that a gauge whose fetch yields NotAvailable
increments the failure counter.  With both credentials rejected (HTTP 429 on
primary and backup) the fetch returns `float("nan")`, but the classifier
`val != float("nan")` on line 166 is `True` for NaN under IEEE-754, so the
code counts the gauge as a success: the snapshot shows `successes = 1`,
`failures = 0` where the claim requires `failures = 1`. -/
theorem c2_notavailable_counted_as_success :
    metrics 10 (.ok (.list [.dict gaugeG1])) env429 [gaugeG1] 0 emptyRate
      = .ok snapG1 := by decide

/-- C3: the claim states that on a 2xx response the rate-limit headers are
optional — used is computed only when both are present and the parsed reading
is emitted regardless.  The code computes `used = int(limit) - int(remaining)`
unconditionally (line 125): with both headers absent, `int(None)` raises
`TypeError` inside the `try`, the valid body `{features:[{properties:
{value:42.5}}]}` is never parsed, no observation is recorded and the
credential is treated as failed (first conjunct).  With parseable headers the
same response yields the reading and the observation (second conjunct). -/
theorem c3_missing_headers_discard_reading :
    fetch_usgs_gauge [("primary", .resp ⟨200, none, none, some bodyVal425⟩)]
      emptyRate = (emptyRate, Val.nan)
    ∧ fetch_usgs_gauge
        [("primary", .resp ⟨200, some "450", some "500", some bodyVal425⟩)]
        emptyRate
      = (⟨[("primary", 450)], [("primary", 500)], [("primary", 50)]⟩,
         Val.num (85/2)) :=
  ⟨rfl, rfl⟩

/-- C4: the claim states that when the primary credential receives a 429 and
the backup returns a valid feature list, the fetch returns the backup's
parsed value.  Because of the unguarded `int(limit) - int(remaining)` on line
125, a backup 2xx response with a valid feature list but without rate-limit
headers is discarded and the fetch degrades to NaN (first conjunct); the
claimed failover behaviour only holds when the backup response also carries
parseable rate-limit headers (second conjunct). -/
theorem c4_failover_lost_without_headers :
    fetch_usgs_gauge
      [("primary", .resp ⟨429, none, none, none⟩),
       ("backup", .resp ⟨200, none, none, some bodyVal425⟩)] emptyRate
      = (emptyRate, Val.nan)
    ∧ fetch_usgs_gauge
        [("primary", .resp ⟨429, none, none, none⟩),
         ("backup", .resp ⟨200, some "450", some "500", some bodyVal425⟩)]
        emptyRate
      = (⟨[("backup", 450)], [("backup", 500)], [("backup", 50)]⟩,
         Val.num (85/2)) :=
  ⟨rfl, rfl⟩

/-- Response body with a single feature whose `properties.value` field is `v`. -/
def featBody (v : Jv) : Option Jv :=
  some (.obj [("features", .arr [.obj [("properties", .obj [("value", v)])]])])

/-- C6: response-body parsing.  With at least one feature, a plain numeric
`properties.value` parses to that number; a nested structure parses to its
inner `value` field, defaulting to NotAvailable when the inner field is
missing (whatever other fields, such as qualifiers, the structure carries);
and an empty `features` list yields NotAvailable without an error. -/
theorem c6_parse_value_shapes (q : ℚ) (quals innerMissing : List (String × Jv))
    (hmiss : dictGet innerMissing "value" = none) :
    parseBody (featBody (.num q)) = .ok (.num q)
    ∧ parseBody (featBody (.obj (("value", .num q) :: quals))) = .ok (.num q)
    ∧ parseBody (featBody (.obj innerMissing)) = .ok Val.nan
    ∧ parseBody (some (.obj [("features", .arr [])])) = .ok Val.nan := by
  refine ⟨rfl, ?_, ?_, rfl⟩
  · simp [parseBody, featBody, jvTruthy, jvIndex0, jvSubscr, dictGet, pyFloat]
  · simp [parseBody, featBody, jvTruthy, jvIndex0, jvSubscr, dictGet, hmiss]

/-- Witness for C6 at the spec's example values: `properties.value = 42.5`
parses to 42.5, also behind a nested structure with qualifiers; a nested
structure without an inner value, and an empty feature list, give
NotAvailable. -/
theorem c6_parse_value_shapes_witness :
    dictGet [("qualifiers", Jv.arr [])] "value" = none
    ∧ (parseBody (featBody (.num (85/2))) = .ok (.num (85/2))
       ∧ parseBody (featBody (.obj (("value", .num (85/2))
           :: [("qualifiers", Jv.arr [])]))) = .ok (.num (85/2))
       ∧ parseBody (featBody (.obj [("qualifiers", Jv.arr [])])) = .ok Val.nan
       ∧ parseBody (some (.obj [("features", .arr [])])) = .ok Val.nan) :=
  ⟨rfl, c6_parse_value_shapes (85/2) [("qualifiers", Jv.arr [])]
    [("qualifiers", Jv.arr [])] rfl⟩

/-- Whether the credential attempt raises (any exception: HTTP error 429 or
otherwise, transport exception, header or body processing error).  The raised
or returned outcome of an attempt does not depend on the global rate state
(`attempt_snd_const`), so it is read off at the empty state. -/
def attemptErrs (label : String) (o : Upstream) : Bool :=
  match (attempt label o ⟨[], [], []⟩).2 with
  | .error _ => true
  | .ok _ => false

/-- C7: the fetch is total at its interface.  Every error path — HTTP errors
other than 429, transport exceptions, malformed bodies, header processing
failures — is caught by the credential loop and treated as "try next
credential"; when no credential's attempt returns a value, the fetch
degrades to NotAvailable instead of propagating an error. -/
theorem c7_fetch_degrades_to_nan (outs : List (String × Upstream))
    (st : RateState) (h : ∀ lo ∈ outs, attemptErrs lo.1 lo.2 = true) :
    (fetch_usgs_gauge outs st).2 = Val.nan := by
  revert h
  induction outs generalizing st with
  | nil => intro _; rfl
  | cons p rest ih =>
    intro h
    obtain ⟨label, o⟩ := p
    have he : attemptErrs label o = true := h (label, o) (List.mem_cons_self _ _)
    rcases hA : attempt label o st with ⟨s1, r1⟩
    cases r1 with
    | ok v =>
      exfalso
      have hc := attempt_snd_const label o ⟨[], [], []⟩ st
      rw [hA] at hc
      simp [attemptErrs, hc] at he
    | error e =>
      simp only [fetch_usgs_gauge, hA]
      exact ih s1 fun lo hlo => h lo (List.mem_cons_of_mem _ hlo)

/-- Witness for C7: a 429 on the primary credential and a backup 2xx whose
`X-RateLimit-Limit` header is not integer-parseable — neither attempt returns
a value and the fetch yields NotAvailable. -/
theorem c7_fetch_degrades_to_nan_witness :
    (∀ lo ∈ [(("primary" : String), Upstream.resp ⟨429, none, none, none⟩),
             (("backup" : String),
              Upstream.resp ⟨200, some "450", some "abc",
                some (.obj [("features", .arr [])])⟩)],
       attemptErrs lo.1 lo.2 = true)
    ∧ (fetch_usgs_gauge
        [(("primary" : String), Upstream.resp ⟨429, none, none, none⟩),
         (("backup" : String),
          Upstream.resp ⟨200, some "450", some "abc",
            some (.obj [("features", .arr [])])⟩)] emptyRate).2 = Val.nan := by
  have h : ∀ lo ∈ [(("primary" : String), Upstream.resp ⟨429, none, none, none⟩),
             (("backup" : String),
              Upstream.resp ⟨200, some "450", some "abc",
                some (.obj [("features", .arr [])])⟩)],
      attemptErrs lo.1 lo.2 = true := by decide
  exact ⟨h, c7_fetch_degrades_to_nan _ emptyRate h⟩

theorem filterMap_length_of_all :
    ∀ items : List Yaml, items.all entryWellFormed = true →
      (items.filterMap yamlAsDict).length = items.length := by
  intro items
  induction items with
  | nil => intro _; rfl
  | cons y t ih =>
    intro h
    simp only [List.all_cons, Bool.and_eq_true] at h
    cases y with
    | dict fields => simp [List.filterMap_cons, yamlAsDict, ih h.2]
    | list l2 => simp [entryWellFormed] at h
    | scalar s => simp [entryWellFormed] at h

/-- C8: gauge-list validation is all-or-nothing.  Whenever the configuration
is malformed — the file read or YAML parse raised, the document is not a
list, or any entry is not a dict or lacks the `id` field — `load_gauges`
returns the empty list (first conjunct); and in every case it returns either
the empty list or the complete input list, never a partially filtered one
(second conjunct). -/
theorem c8_malformed_list_rejected (inp : Except String Yaml) :
    (gaugesWellFormedE inp = false → load_gauges inp = [])
    ∧ (load_gauges inp = []
       ∨ ∃ items, inp = Except.ok (Yaml.list items)
           ∧ load_gauges inp = items.filterMap yamlAsDict
           ∧ (items.filterMap yamlAsDict).length = items.length) := by
  cases inp with
  | error e => exact ⟨fun _ => rfl, Or.inl rfl⟩
  | ok y =>
    cases y with
    | dict fields => exact ⟨fun _ => rfl, Or.inl rfl⟩
    | scalar s => exact ⟨fun _ => rfl, Or.inl rfl⟩
    | list items =>
      by_cases h : items.all entryWellFormed
      · refine ⟨fun hw => ?_, Or.inr ⟨items, rfl, by simp [load_gauges, h],
          filterMap_length_of_all items h⟩⟩
        simp [gaugesWellFormedE, h] at hw
      · have hempty : load_gauges (Except.ok (Yaml.list items)) = [] := by
          simp only [load_gauges]
          rw [if_neg h]
        exact ⟨fun _ => hempty, Or.inl hempty⟩

/-- Witness for C8: a list with one entry lacking the `id` field is rejected
as a whole. -/
theorem c8_malformed_list_rejected_witness :
    gaugesWellFormedE (Except.ok (Yaml.list [Yaml.dict [("name", "x")]])) = false
    ∧ load_gauges (Except.ok (Yaml.list [Yaml.dict [("name", "x")]])) = [] := by
  have hb : gaugesWellFormedE
      (Except.ok (Yaml.list [Yaml.dict [("name", "x")]])) = false := by decide
  exact ⟨hb,
    (c8_malformed_list_rejected (Except.ok (Yaml.list [Yaml.dict [("name", "x")]]))).1 hb⟩

/-- C10: for every scrape that completes, each collected task increments
exactly one of the two counters exactly once, so the success counter plus the
failure counter equals the number of gauges in the loaded descriptor list. -/
theorem c10_counters_sum_to_total {maxW : Int} {input : Except String Yaml}
    {env : String → Upstream × Upstream} {order : List GaugeDict} {d : ℚ}
    {st0 : RateState} {snap : Snapshot}
    (hperm : order.Perm (load_gauges input))
    (h : metrics maxW input env order d st0 = Except.ok snap) :
    snap.successes + snap.failures = snap.gauges_total := by
  obtain ⟨-, hs, hf, ht, -, -⟩ := metrics_ok h
  rw [hs, hf, ht, scrape_fold_eq]
  simp [hperm.length_eq]

/-- Witness for C10 on the one-gauge scenario with both credentials failing:
1 + 0 = 1. -/
theorem c10_counters_sum_to_total_witness :
    List.Perm [gaugeG1] (load_gauges (Except.ok (Yaml.list [.dict gaugeG1])))
    ∧ metrics 10 (Except.ok (Yaml.list [.dict gaugeG1])) env429 [gaugeG1] 0
        emptyRate = Except.ok snapG1
    ∧ snapG1.successes + snapG1.failures = snapG1.gauges_total := by
  have hperm : List.Perm [gaugeG1]
      (load_gauges (Except.ok (Yaml.list [.dict gaugeG1]))) := by
    have : load_gauges (Except.ok (Yaml.list [.dict gaugeG1])) = [gaugeG1] := rfl
    rw [this]
  have hmet : metrics 10 (Except.ok (Yaml.list [.dict gaugeG1])) env429
      [gaugeG1] 0 emptyRate = Except.ok snapG1 := by decide
  exact ⟨hperm, hmet, c10_counters_sum_to_total hperm hmet⟩

/-- Descriptor with gauge id `A` and no display names. -/
def gaugeA : GaugeDict := [("id", "A")]

/-- Second descriptor with the same gauge id `A` but a friendly name. -/
def gaugeA2 : GaugeDict := [("id", "A"), ("friendly_name", "B")]

/-- Descriptor with gauge id `B`. -/
def gaugeB : GaugeDict := [("id", "B")]

theorem countP_beq_one {α : Type} [BEq α] [LawfulBEq α] {l : List α} {a : α}
    (hnd : l.Nodup) (hm : a ∈ l) : l.countP (fun x => x == a) = 1 := by
  induction l with
  | nil => simp at hm
  | cons b t ih =>
    rw [List.nodup_cons] at hnd
    rw [List.countP_cons]
    rcases List.mem_cons.mp hm with hab | hat
    · have hz : t.countP (fun x => x == a) = 0 := by
        rw [List.countP_eq_zero]
        intro x hx hxa
        have hx2 := eq_of_beq hxa
        subst hx2
        rw [hab] at hx
        exact hnd.1 hx
      have hb : (b == a) = true := by rw [beq_iff_eq]; exact hab.symm
      simp [hz, hb]
    · have hne : (b == a) = false := by
        rw [beq_eq_false_iff_ne]
        intro hba
        exact hnd.1 (hba ▸ hat)
      simp [hne, ih hnd.2 hat]

/-- Number of streamflow entries carrying a given gauge id in the snapshot a
scrape produced (`none` when the scrape raised). -/
def streamflowCountFor (e : Except Exc Snapshot) (gid : String) : Option Nat :=
  match e with
  | .ok s => some (s.streamflow.countP fun en => en.1.1 == some gid)
  | .error _ => none

/-- Counterexample for C5: the streamflow family is keyed by the full label
triple, so a list with two descriptors sharing gauge id `A` but different
friendly names yields two entries for the single distinct gauge id `A` —
not exactly one entry per distinct gauge id as claimed. -/
theorem c5_cex_duplicate_gauge_id :
    streamflowCountFor
      (metrics 10 (.ok (.list [.dict gaugeA, .dict gaugeA2])) env429
        [gaugeA, gaugeA2] 0 emptyRate) "A" = some 2 := by decide

/-- C5 (amended): for every gauge-descriptor list whose ids are pairwise
distinct, a completed scrape's streamflow family has exactly one entry per
gauge id of the input, each holding a numeric value or NaN, its size equals
the input length (no result dropped), and `gauges_total` equals the input
length. -/
theorem c5_unique_entry_per_gauge {maxW : Int} {input : Except String Yaml}
    {env : String → Upstream × Upstream} {order : List GaugeDict} {d : ℚ}
    {st0 : RateState} {snap : Snapshot} {gid : String}
    (hperm : order.Perm (load_gauges input))
    (hnodup : ((load_gauges input).map fun g => dictGet g "id").Nodup)
    (hmem : some gid ∈ (load_gauges input).map fun g => dictGet g "id")
    (h : metrics maxW input env order d st0 = Except.ok snap) :
    snap.gauges_total = (load_gauges input).length
    ∧ snap.streamflow.length = (load_gauges input).length
    ∧ snap.streamflow.countP (fun e => e.1.1 == some gid) = 1
    ∧ ∀ e ∈ snap.streamflow, e.2 = Val.nan ∨ ∃ q, e.2 = Val.num q := by
  obtain ⟨hflow, -, -, ht, -, -⟩ := metrics_ok h
  simp only [scrape_fold_eq] at hflow
  have hids : (order.map fun g => dictGet g "id").Nodup :=
    ((hperm.map fun g => dictGet g "id").nodup_iff).mpr hnodup
  have hcomp : (order.map fun g => dictGet g "id")
      = (order.map flowKey).map fun k => k.1 := by
    rw [List.map_map]; rfl
  have hkeys : (order.map flowKey).Nodup := by
    rw [hcomp] at hids
    exact hids.of_map _
  have hmap : snap.streamflow = order.map fun g => (flowKey g, gaugeVal env g) := by
    rw [hflow]
    exact dffold_nodup flowKey (gaugeVal env) order hkeys
  refine ⟨ht, ?_, ?_, ?_⟩
  · rw [hmap, List.length_map, hperm.length_eq]
  · rw [hmap, List.countP_map]
    rw [List.Perm.countP_eq
      ((fun (e : FlowKey × Val) => e.1.1 == some gid)
        ∘ fun g => (flowKey g, gaugeVal env g)) hperm]
    have hone := countP_beq_one hnodup hmem
    rw [List.countP_map] at hone
    exact hone
  · intro e _
    cases h2 : e.2 with
    | nan => exact Or.inl rfl
    | num q => exact Or.inr ⟨q, rfl⟩

/-- Upstream environment with deterministic per-gauge responses: gauge `A`
answers on the primary credential with remaining 450 of 500 and value 1,
gauge `B` with remaining 449 of 500 and value 2. -/
def envAB : String → Upstream × Upstream := fun gid =>
  if gid = "A" then
    (.resp ⟨200, some "450", some "500",
      some (.obj [("features",
        .arr [.obj [("properties", .obj [("value", .num 1)])]])])⟩,
     .transportError)
  else
    (.resp ⟨200, some "449", some "500",
      some (.obj [("features",
        .arr [.obj [("properties", .obj [("value", .num 2)])]])])⟩,
     .transportError)

/-- The two-gauge configuration `[A, B]`. -/
def inpAB : Except String Yaml := .ok (.list [.dict gaugeA, .dict gaugeB])

/-- Snapshot of the `[A, B]` scrape when the tasks complete in order `A, B`. -/
def snapAB : Snapshot :=
  ⟨[((some "A", some "A", some "A"), Val.num 1),
    ((some "B", some "B", some "B"), Val.num 2)], 2, 0, 2, 0,
   ⟨[("primary", 449)], [("primary", 500)], [("primary", 51)]⟩⟩

/-- Snapshot of the `[A, B]` scrape when the tasks complete in order `B, A`. -/
def snapBA : Snapshot :=
  ⟨[((some "B", some "B", some "B"), Val.num 2),
    ((some "A", some "A", some "A"), Val.num 1)], 2, 0, 2, 0,
   ⟨[("primary", 450)], [("primary", 500)], [("primary", 50)]⟩⟩

/-- Latest recorded `X-RateLimit-Remaining` observation for the primary
credential in the snapshot a scrape produced (`none` when the scrape
raised). -/
def rateRemainingPrimary (e : Except Exc Snapshot) : Option (Option Int) :=
  match e with
  | .ok s => some (dictGet s.rate.remaining "primary")
  | .error _ => none

/-- Counterexample for C9: two runs over the same fixed gauge list with
identical deterministic upstream responses, identical pool size and identical
duration, differing only in task completion order, record different
rate-limit observations for the primary credential (449 vs 450): the
snapshots are not identical except for duration. -/
theorem c9_cex_completion_order_ratelimit :
    rateRemainingPrimary (metrics 10 inpAB envAB [gaugeA, gaugeB] 0 emptyRate)
      = some (some 449)
    ∧ rateRemainingPrimary (metrics 10 inpAB envAB [gaugeB, gaugeA] 0 emptyRate)
      = some (some 450) := by
  constructor <;> decide

/-- C9 (amended): two completed runs of the scrape over the same gauge list,
the same deterministic upstream responses and the same starting rate-limit
state produce snapshots with identical per-gauge readings (as a mapping over
label triples), success and failure counters and `gauges_total`, for any
worker-pool sizes and any task completion orders; the rate-limit observations
are additionally identical when the two runs complete their tasks in the same
order (they are last-writer-wins in completion order). -/
theorem c9_order_independent_except_ratelimit {input : Except String Yaml}
    {env : String → Upstream × Upstream} {st0 : RateState} {maxW1 maxW2 : Int}
    {d1 d2 : ℚ} {o1 o2 : List GaugeDict} {s1 s2 : Snapshot}
    (h1 : o1.Perm (load_gauges input)) (h2 : o2.Perm (load_gauges input))
    (hm1 : metrics maxW1 input env o1 d1 st0 = Except.ok s1)
    (hm2 : metrics maxW2 input env o2 d2 st0 = Except.ok s2) :
    (∀ k, dictGet s1.streamflow k = dictGet s2.streamflow k)
    ∧ s1.successes = s2.successes
    ∧ s1.failures = s2.failures
    ∧ s1.gauges_total = s2.gauges_total
    ∧ (o1 = o2 → s1.rate = s2.rate) := by
  obtain ⟨hf1, hs1, hl1, ht1, -, hr1⟩ := metrics_ok hm1
  obtain ⟨hf2, hs2, hl2, ht2, -, hr2⟩ := metrics_ok hm2
  simp only [scrape_fold_eq] at hf1 hs1 hl1 hr1 hf2 hs2 hl2 hr2
  have hkv : ∀ a b, flowKey a = flowKey b → gaugeVal env a = gaugeVal env b := by
    intro a b hab
    have hid : dictGet a "id" = dictGet b "id" :=
      congrArg (fun t : FlowKey => t.1) hab
    rw [gaugeVal, gaugeVal, hid]
  refine ⟨?_, ?_, ?_, ?_, ?_⟩
  · intro k
    rw [hf1, hf2]
    exact dffold_get_perm flowKey (gaugeVal env) hkv (h1.trans h2.symm) k
  · rw [hs1, hs2, h1.length_eq, h2.length_eq]
  · rw [hl1, hl2]
  · rw [ht1, ht2]
  · intro heq
    subst heq
    rw [hr1, hr2]

/-- Witness for C9 (amended) on the deterministic two-gauge scenario, with
pool size 1 for the first run and 50 for the second, and opposite completion
orders. -/
theorem c9_order_independent_witness :
    List.Perm [gaugeA, gaugeB] (load_gauges inpAB)
    ∧ List.Perm [gaugeB, gaugeA] (load_gauges inpAB)
    ∧ metrics 1 inpAB envAB [gaugeA, gaugeB] 0 emptyRate = Except.ok snapAB
    ∧ metrics 50 inpAB envAB [gaugeB, gaugeA] 0 emptyRate = Except.ok snapBA
    ∧ ((∀ k, dictGet snapAB.streamflow k = dictGet snapBA.streamflow k)
       ∧ snapAB.successes = snapBA.successes
       ∧ snapAB.failures = snapBA.failures
       ∧ snapAB.gauges_total = snapBA.gauges_total
       ∧ ([gaugeA, gaugeB] = [gaugeB, gaugeA] → snapAB.rate = snapBA.rate)) := by
  have p1 : List.Perm [gaugeA, gaugeB] (load_gauges inpAB) := by decide
  have p2 : List.Perm [gaugeB, gaugeA] (load_gauges inpAB) := by decide
  have m1 : metrics 1 inpAB envAB [gaugeA, gaugeB] 0 emptyRate
      = Except.ok snapAB := by decide
  have m2 : metrics 50 inpAB envAB [gaugeB, gaugeA] 0 emptyRate
      = Except.ok snapBA := by decide
  exact ⟨p1, p2, m1, m2,
    c9_order_independent_except_ratelimit p1 p2 m1 m2⟩

/-- Witness for C5 (amended) on the same scenario: gauge ids `A` and `B` are
distinct, the scrape completes, and each id owns exactly one entry. -/
theorem c5_unique_entry_per_gauge_witness :
    List.Perm [gaugeA, gaugeB] (load_gauges inpAB)
    ∧ ((load_gauges inpAB).map fun g => dictGet g "id").Nodup
    ∧ some "A" ∈ ((load_gauges inpAB).map fun g => dictGet g "id")
    ∧ metrics 10 inpAB envAB [gaugeA, gaugeB] 0 emptyRate = Except.ok snapAB
    ∧ (snapAB.gauges_total = (load_gauges inpAB).length
       ∧ snapAB.streamflow.length = (load_gauges inpAB).length
       ∧ snapAB.streamflow.countP (fun e => e.1.1 == some "A") = 1
       ∧ ∀ e ∈ snapAB.streamflow, e.2 = Val.nan ∨ ∃ q, e.2 = Val.num q) := by
  have p1 : List.Perm [gaugeA, gaugeB] (load_gauges inpAB) := by decide
  have pn : ((load_gauges inpAB).map fun g => dictGet g "id").Nodup := by decide
  have pm : some "A" ∈ ((load_gauges inpAB).map fun g => dictGet g "id") := by decide
  have m1 : metrics 10 inpAB envAB [gaugeA, gaugeB] 0 emptyRate
      = Except.ok snapAB := by decide
  exact ⟨p1, pn, pm, m1, c5_unique_entry_per_gauge p1 pn pm m1⟩

end UsgsExporter
